import Mathlib

/-!
Verification development for the uhppoted-lib-python transport and dispatcher layer.

The Python sources under `src/uhppoted` are shallowly embedded: each asyncio protocol
class (`udp_async.BroadcastProtocol`, `udp_async.SendProtocol`, `udp_async.EventProtocol`,
`tcp_async.SendProtocol`) becomes a state record plus one Lean function per callback,
and an operation (`run`) becomes a fold of those callbacks over the list of network
events delivered while the operation is awaited.  The blocking TCP transport
(`tcp.py`) is embedded as a recursion over the list of successive `recv` results.
Packets are lists of byte values; asyncio futures are modelled as `Option` of the
completion value (`none` = pending), with `set_result`/`set_exception` on an
already-completed future recorded as an unguarded completion attempt (asyncio raises
`InvalidStateError` there and leaves the future's value unchanged).
-/

deriving instance DecidableEq for Except

namespace Uhppoted

/-- A network packet: a list of byte values. -/
abbrev Packet := List Nat

/-- Errors raised by the transport layer (`RuntimeError`, `ConnectionResetError`,
`EOFError`, `TimeoutError` in the Python sources). -/
inductive XErr where
  | runtimeError (msg : String)
  | connectionReset (msg : String)
  | eofError (msg : String)
  | timeoutError (msg : String)
deriving DecidableEq

/-! ### `udp_async.BroadcastProtocol`

State of one broadcast operation: the collected replies, the future `_done`
(which for this protocol is only ever completed with an exception, by the
self-broadcast guard), and the number of `sendto` calls made. -/

structure BroadcastState where
  replies : List Packet
  done : Option XErr
  sentCount : Nat
deriving DecidableEq

/-- `BroadcastProtocol.connection_made` (udp_async.py:27-41): if the bound source
port equals the broadcast destination port, set a `RuntimeError` on `_done` and
close the transport without sending; otherwise send the request datagram. -/
def broadcastConnectionMade (srcPort destPort : Nat) : BroadcastState :=
  if srcPort = destPort then
    { replies := [],
      done := some (XErr.runtimeError
        ("invalid UDP bind address (port " ++ toString srcPort ++ " reserved for broadcast)")),
      sentCount := 0 }
  else
    { replies := [], done := none, sentCount := 1 }

/-- `BroadcastProtocol.datagram_received` (udp_async.py:43-50): append the packet
to `_replies` when it is exactly 64 bytes; otherwise do nothing. -/
def broadcastDatagramReceived (s : BroadcastState) (packet : Packet) : BroadcastState :=
  if packet.length = 64 then { s with replies := s.replies ++ [packet] } else s

/-- Final state of a broadcast operation over the datagrams that arrive before the
deadline.  When the self-broadcast guard fired, the transport was closed in
`connection_made` and no datagrams are processed. -/
def broadcastFinal (srcPort destPort : Nat) (arrivals : List Packet) : BroadcastState :=
  let s0 := broadcastConnectionMade srcPort destPort
  match s0.done with
  | some _ => s0
  | none => arrivals.foldl broadcastDatagramReceived s0

/-- `BroadcastProtocol.run` (udp_async.py:55-70): `asyncio.wait_for(self._done, timeout)`
raises the guard's exception immediately when `_done` holds one; otherwise nothing ever
completes `_done`, the wait times out at the deadline and the collected replies are
returned. -/
def broadcastRun (srcPort destPort : Nat) (arrivals : List Packet) : Except XErr (List Packet) :=
  let s := broadcastFinal srcPort destPort arrivals
  match s.done with
  | some e => Except.error e
  | none => Except.ok s.replies

/-! ### `udp_async.SendProtocol`

State of one addressed (or broadcast-addressed) UDP send: the future `_done`
holding `Except` of the reply (`Option Packet`: `none` is the set-ip no-reply
result), the number of `sendto` calls, and a count of completion attempts made
while the future was already done (each such attempt raises
`asyncio.InvalidStateError` and leaves the future unchanged). -/

structure SendState where
  done : Option (Except XErr (Option Packet))
  sentCount : Nat
  unguardedAttempts : Nat
deriving DecidableEq

/-- Events delivered to a UDP `SendProtocol` while its operation is awaited. -/
inductive UdpEv where
  | datagram (packet : Packet)
  | connectionLost (exc : Bool)
deriving DecidableEq

/-- `SendProtocol.connection_made` (udp_async.py:85-89): send the request; for a
set-ip request (function byte `0x96`) immediately complete `_done` with `None`. -/
def sendConnectionMade (request : Packet) : SendState :=
  let s : SendState := { done := none, sentCount := 1, unguardedAttempts := 0 }
  if request.get? 1 = some 0x96 then { s with done := some (Except.ok none) } else s

/-- `SendProtocol.datagram_received` (udp_async.py:91-98): complete `_done` with the
packet when it is exactly 64 bytes and `_done` is not yet done (the done-check guards
this completion). -/
def sendDatagramReceived (s : SendState) (packet : Packet) : SendState :=
  if packet.length = 64 ∧ s.done = none then
    { s with done := some (Except.ok (some packet)) }
  else s

/-- `SendProtocol.connection_lost` (udp_async.py:100-102): when the connection was
lost with an error, call `set_exception(ConnectionResetError())` WITHOUT checking
whether `_done` is already done; on a completed future that call raises
`InvalidStateError`, recorded here as an unguarded attempt. -/
def sendConnectionLost (s : SendState) (exc : Bool) : SendState :=
  if exc then
    match s.done with
    | none => { s with done := some (Except.error (XErr.connectionReset "")) }
    | some _ => { s with unguardedAttempts := s.unguardedAttempts + 1 }
  else s

/-- One event step of the UDP `SendProtocol`. -/
def udpSendStep (s : SendState) (e : UdpEv) : SendState :=
  match e with
  | UdpEv.datagram p => sendDatagramReceived s p
  | UdpEv.connectionLost exc => sendConnectionLost s exc

/-- Final protocol state after `connection_made` and the events that occur before
the deadline. -/
def udpSendFinal (request : Packet) (events : List UdpEv) : SendState :=
  events.foldl udpSendStep (sendConnectionMade request)

/-- `SendProtocol.run` (udp_async.py:104-113): await `_done` under `wait_for`;
a pending future at the deadline raises `TimeoutError("UDP request timeout")`, a
`ConnectionResetError` is re-raised as `ConnectionResetError("UDP connection reset")`. -/
def udpSendRun (request : Packet) (events : List UdpEv) : Except XErr (Option Packet) :=
  match (udpSendFinal request events).done with
  | some (Except.ok r) => Except.ok r
  | some (Except.error (XErr.connectionReset _)) =>
      Except.error (XErr.connectionReset "UDP connection reset")
  | some (Except.error e) => Except.error e
  | none => Except.error (XErr.timeoutError "UDP request timeout")

/-! ### `tcp_async.SendProtocol` -/

/-- State of one cooperative TCP send: the accumulation buffer `_buffer`, the
future `_done`, the number of `write` calls, and the count of completion attempts
made on an already-completed future (none exist in this class: every completion
site is guarded by a done-check). -/
structure TcpSendState where
  buffer : Packet
  done : Option (Except XErr (Option Packet))
  written : Nat
  unguardedAttempts : Nat
deriving DecidableEq

/-- Events delivered to a TCP `SendProtocol` while its operation is awaited. -/
inductive TcpEv where
  | data (chunk : Packet)
  | eof
  | connectionLost (exc : Bool)
deriving DecidableEq

/-- `tcp_async.SendProtocol.connection_made` (tcp_async.py:27-31): write the request;
for a set-ip request (function byte `0x96`) immediately complete `_done` with `None`. -/
def tcpConnectionMade (request : Packet) : TcpSendState :=
  let s : TcpSendState := { buffer := [], done := none, written := 1, unguardedAttempts := 0 }
  if request.get? 1 = some 0x96 then { s with done := some (Except.ok none) } else s

/-- `tcp_async.SendProtocol.data_received` (tcp_async.py:33-39): extend the buffer
with the received bytes; once at least 64 bytes have accumulated and `_done` is not
yet done, complete `_done` with the first 64 bytes of the buffer. -/
def tcpDataReceived (s : TcpSendState) (chunk : Packet) : TcpSendState :=
  let b := s.buffer ++ chunk
  if 64 ≤ b.length ∧ s.done = none then
    { s with buffer := b, done := some (Except.ok (some (b.take 64))) }
  else { s with buffer := b }

/-- `tcp_async.SendProtocol.eof_received` (tcp_async.py:41-43): guarded by a
done-check, complete `_done` with `EOFError`. -/
def tcpEofReceived (s : TcpSendState) : TcpSendState :=
  if s.done = none then { s with done := some (Except.error (XErr.eofError "")) } else s

/-- `tcp_async.SendProtocol.connection_lost` (tcp_async.py:45-49): guarded by
done-checks, complete `_done` with `ConnectionResetError` when an error is reported
and with `EOFError` otherwise. -/
def tcpConnectionLost (s : TcpSendState) (exc : Bool) : TcpSendState :=
  if exc then
    if s.done = none then { s with done := some (Except.error (XErr.connectionReset "")) } else s
  else
    if s.done = none then { s with done := some (Except.error (XErr.eofError "")) } else s

/-- One event step of the TCP `SendProtocol`. -/
def tcpStep (s : TcpSendState) (e : TcpEv) : TcpSendState :=
  match e with
  | TcpEv.data c => tcpDataReceived s c
  | TcpEv.eof => tcpEofReceived s
  | TcpEv.connectionLost exc => tcpConnectionLost s exc

/-- Final protocol state after `connection_made` and the events that occur before
the deadline. -/
def tcpSendFinal (request : Packet) (events : List TcpEv) : TcpSendState :=
  events.foldl tcpStep (tcpConnectionMade request)

/-- `tcp_async.SendProtocol.run` (tcp_async.py:51-59): await `_done` under
`wait_for`; a pending future at the deadline raises `TimeoutError("TCP request
timeout")`; reset and EOF exceptions are re-raised with their messages. -/
def tcpSendRun (request : Packet) (events : List TcpEv) : Except XErr (Option Packet) :=
  match (tcpSendFinal request events).done with
  | some (Except.ok r) => Except.ok r
  | some (Except.error (XErr.connectionReset _)) =>
      Except.error (XErr.connectionReset "TCP connection reset")
  | some (Except.error (XErr.eofError _)) =>
      Except.error (XErr.eofError "TCP connection closed")
  | some (Except.error e) => Except.error e
  | none => Except.error (XErr.timeoutError "TCP request timeout")

/-! ### `tcp.py` (blocking TCP transport) -/

/-- `tcp._read` (tcp.py:87-111): loop `reply = sock.recv(1024)` and return the
reply as soon as a single `recv` yields exactly 64 bytes.  The list argument is
the successive results of `recv`; exhausting it without an exactly-64-byte read
yields no frame (the loop would still be waiting, until the socket timeout).
Note that partial reads are NOT accumulated. -/
def syncRead : List Packet → Option Packet
  | [] => none
  | reply :: rest => if reply.length = 64 then some reply else syncRead rest

/-- `TCP.send` (tcp.py:36-70): send the request; for a set-ip request (function
byte `0x96`) return `None` without reading; otherwise read via `tcp._read`. -/
def tcpSyncSend (request : Packet) (recvs : List Packet) : Option Packet :=
  if request.get? 1 = some 0x96 then none else syncRead recvs

/-- Timed model of `tcp._read`: `sock.settimeout(t)` bounds each individual
`recv`, not the loop.  Each entry `(d, reply)` is a `recv` that returns `reply`
after waiting `d`; a wait longer than `t` makes `recv` raise `socket.timeout`
after `t`.  Returns the frame (or `none` on timeout or exhausted input) together
with the total time spent waiting for reads. -/
def syncReadElapsed (t : Nat) : List (Nat × Packet) → Nat → Option Packet × Nat
  | [], elapsed => (none, elapsed)
  | (d, reply) :: rest, elapsed =>
    if t < d then (none, elapsed + t)
    else if reply.length = 64 then (some reply, elapsed + d)
    else syncReadElapsed t rest (elapsed + d)

/-- Timed blocking TCP read starting from zero elapsed time. -/
def tcpReadElapsed (t : Nat) (recvs : List (Nat × Packet)) : Option Packet × Nat :=
  syncReadElapsed t recvs 0

/-- Timed model of the cooperative UDP send (`SendProtocol.run` under
`asyncio.wait_for(self._done, timeout)`): each arrival is `(u, packet)` with `u`
the time since the wait started; the future completes at the first 64-byte
arrival not after the deadline `t`, and otherwise `wait_for` cancels the wait at
the deadline.  Returns the outcome together with the total time spent waiting. -/
def udpArrivalsWait (t : Nat) : List (Nat × Packet) → Except XErr (Option Packet) × Nat
  | [] => (Except.error (XErr.timeoutError "UDP request timeout"), t)
  | (u, p) :: rest =>
    if u ≤ t ∧ p.length = 64 then (Except.ok (some p), u) else udpArrivalsWait t rest

/-- Timed cooperative UDP send: a set-ip request completes immediately in
`connection_made`; any other request waits on the future under the deadline. -/
def udpSendElapsed (t : Nat) (request : Packet) (arrivals : List (Nat × Packet)) :
    Except XErr (Option Packet) × Nat :=
  if request.get? 1 = some 0x96 then (Except.ok none, 0) else udpArrivalsWait t arrivals

/-- Timed model of the cooperative TCP send: chunks arriving not after the
deadline `t` accumulate into the buffer; the future completes when the buffer
reaches 64 bytes; otherwise `wait_for` cancels the wait at the deadline. -/
def tcpChunksWait (t : Nat) : Packet → List (Nat × Packet) → Except XErr (Option Packet) × Nat
  | _, [] => (Except.error (XErr.timeoutError "TCP request timeout"), t)
  | buffer, (u, c) :: rest =>
    if u ≤ t then
      if 64 ≤ (buffer ++ c).length then (Except.ok (some ((buffer ++ c).take 64)), u)
      else tcpChunksWait t (buffer ++ c) rest
    else tcpChunksWait t buffer rest

/-- Timed cooperative TCP send starting from an empty buffer. -/
def tcpSendElapsed (t : Nat) (request : Packet) (chunks : List (Nat × Packet)) :
    Except XErr (Option Packet) × Nat :=
  if request.get? 1 = some 0x96 then (Except.ok none, 0) else tcpChunksWait t [] chunks

/-! ### Event listener (`udp_async.EventProtocol` and `UhppoteAsync.listen`) -/

/-- Lowercase hexadecimal digit, as produced by Python's `f"{code:02x}"`. -/
def hexDigit (n : Nat) : Char :=
  if n < 10 then Char.ofNat (48 + n) else Char.ofNat (87 + n)

/-- Two-digit lowercase hexadecimal rendering of a byte. -/
def hex2 (b : Nat) : String :=
  String.mk [hexDigit (b / 16 % 16), hexDigit (b % 16)]

/-- Modelled from the spec: `decode.event` (decode.py is not among the sources).
The spec fixes the validation relevant here: the decoder accepts both the `0x17`
SOM and the `0x19` v6.62 variant (identical layout), and a function byte other
than the event function code `0x20` raises an error whose string is
`"invalid reply function code (xx)"` with the byte in two lowercase hex digits.
The decoded record is represented by the validated frame itself; the listener
only ever passes 64-byte frames, so byte 1 always exists. -/
def decode_event (frame : Packet) : Except String Packet :=
  let fn := frame.getD 1 0
  if fn = 0x20 then Except.ok frame
  else Except.error ("invalid reply function code (" ++ hex2 fn ++ ")")

/-- Observable outputs of the event listener: events delivered to `on_event`,
error lines printed to the console by the handler's `except` clause
(uhppote_async.py:1285-1292 prints `"   *** ERROR {exc}"`), invocations of an
error callback (the async API `UhppoteAsync.listen(self, on_event)` exposes no
error callback, so this list is never written), and whether the listener
terminated. -/
structure ListenOut where
  delivered : List Packet
  consoleErrors : List String
  callbackErrors : List String
  terminated : Bool
deriving DecidableEq

/-- The handler closure in `UhppoteAsync.listen` (uhppote_async.py:1285-1292):
decode the packet and deliver the event to `on_event`; any exception is caught
and printed, and the listener continues. -/
def listenHandle (out : ListenOut) (packet : Packet) : ListenOut :=
  match decode_event packet with
  | Except.ok ev => { out with delivered := out.delivered ++ [ev] }
  | Except.error msg => { out with consoleErrors := out.consoleErrors ++ ["   *** ERROR " ++ msg] }

/-- `EventProtocol.datagram_received` (udp_async.py:129-133): invoke the handler
only for datagrams of exactly 64 bytes; drop the rest silently. -/
def eventDatagramReceived (out : ListenOut) (data : Packet) : ListenOut :=
  if data.length = 64 then listenHandle out data else out

/-- The listener's observable output over a sequence of received datagrams. -/
def listenProcess (datagrams : List Packet) : ListenOut :=
  datagrams.foldl eventDatagramReceived
    { delivered := [], consoleErrors := [], callbackErrors := [], terminated := false }

/-! ### Dispatcher (`UhppoteAsync._send` and `UhppoteAsync.set_ip`) -/

/-- The transport actually used for one dispatcher call. -/
inductive Transport where
  | tcp
  | udpBroadcastSend
  | udpAddressed
deriving DecidableEq

/-- Transport selection of `UhppoteAsync._send` (uhppote_async.py:1307-1325)
combined with `UDPAsync.send` (udp_async.py:202-239): TCP when the protocol is
`"tcp"` and a destination address is present; otherwise UDP, which sends to the
configured broadcast address when the destination address is `None` and to the
resolved destination otherwise.  The result is `Except` so that the absence of
any raised configuration error is part of the model: the code never raises here. -/
def selectTransport (protocol : String) (destAddr : Option String) : Except XErr Transport :=
  if protocol = "tcp" ∧ destAddr ≠ none then Except.ok Transport.tcp
  else if destAddr = none then Except.ok Transport.udpBroadcastSend
  else Except.ok Transport.udpAddressed

/-- Little-endian 4-byte encoding of a 32-bit value. -/
def leU32 (n : Nat) : List Nat :=
  [n % 256, n / 256 % 256, n / 65536 % 256, n / 16777216 % 256]

/-- Modelled from the spec: `encode.set_ip_request` (encode.py is not among the
sources).  Per the spec's canonical request layout, the frame starts with SOM
`0x17`, the set-ip function code `0x96`, two reserved zero bytes and the 4-byte
little-endian controller serial; the three IPv4 values follow as raw 4-byte
payload and the frame is zero-padded to 64 bytes. -/
def set_ip_request (controller : Nat) (address netmask gateway : List Nat) : Packet :=
  let base := [0x17, 0x96, 0x00, 0x00] ++ leU32 controller ++ address ++ netmask ++ gateway
  base ++ List.replicate (64 - base.length) 0

/-- `UhppoteAsync._send` (uhppote_async.py:1307-1325): run the selected transport.
Both UDP paths of `UDPAsync.send` construct a `SendProtocol`; the TCP path runs
`tcp_async.SendProtocol`. -/
def dispatchSend (protocol : String) (destAddr : Option String) (request : Packet)
    (udpEvents : List UdpEv) (tcpEvents : List TcpEv) : Except XErr (Option Packet) :=
  match selectTransport protocol destAddr with
  | Except.error e => Except.error e
  | Except.ok Transport.tcp => tcpSendRun request tcpEvents
  | Except.ok _ => udpSendRun request udpEvents

/-- `UhppoteAsync.set_ip` (uhppote_async.py:98-130): encode the set-ip request,
send it through `_send`, discard the (absent) reply and return `True`; transport
errors propagate. -/
def set_ip (protocol : String) (destAddr : Option String) (controller : Nat)
    (address netmask gateway : List Nat)
    (udpEvents : List UdpEv) (tcpEvents : List TcpEv) : Except XErr Bool :=
  match dispatchSend protocol destAddr (set_ip_request controller address netmask gateway)
      udpEvents tcpEvents with
  | Except.error e => Except.error e
  | Except.ok _ => Except.ok true

end Uhppoted

namespace Uhppoted

/-! ### Helper lemmas -/

/-- A UDP protocol event never changes an already-completed future. -/
theorem udpSendStep_done_stable (s : SendState) (e : UdpEv)
    (v : Except XErr (Option Packet)) (h : s.done = some v) :
    (udpSendStep s e).done = some v := by
  cases e with
  | datagram p =>
    simp only [udpSendStep, sendDatagramReceived]
    rw [if_neg]
    · exact h
    · simp [h]
  | connectionLost exc =>
    simp only [udpSendStep, sendConnectionLost]
    by_cases hexc : exc
    · simp only [hexc, if_true, h]
    · simp [hexc, h]

/-- Folding UDP protocol events never changes an already-completed future. -/
theorem udpSendFold_done_stable (events : List UdpEv) (s : SendState)
    (v : Except XErr (Option Packet)) (h : s.done = some v) :
    (events.foldl udpSendStep s).done = some v := by
  induction events generalizing s with
  | nil => exact h
  | cons e rest ih => exact ih _ (udpSendStep_done_stable s e v h)

/-- UDP protocol events never change the count of sent datagrams. -/
theorem udpSendStep_sent (s : SendState) (e : UdpEv) :
    (udpSendStep s e).sentCount = s.sentCount := by
  cases e with
  | datagram p =>
    simp only [udpSendStep, sendDatagramReceived]
    split <;> rfl
  | connectionLost exc =>
    simp only [udpSendStep, sendConnectionLost]
    split
    · split <;> rfl
    · rfl

/-- Folding UDP protocol events never changes the count of sent datagrams. -/
theorem udpSendFold_sent (events : List UdpEv) (s : SendState) :
    (events.foldl udpSendStep s).sentCount = s.sentCount := by
  induction events generalizing s with
  | nil => rfl
  | cons e rest ih => rw [List.foldl_cons, ih, udpSendStep_sent]

/-- A TCP protocol event never changes an already-completed future. -/
theorem tcpStep_done_stable (s : TcpSendState) (e : TcpEv)
    (v : Except XErr (Option Packet)) (h : s.done = some v) :
    (tcpStep s e).done = some v := by
  cases e with
  | data c =>
    simp only [tcpStep, tcpDataReceived]
    rw [if_neg]
    · exact h
    · simp [h]
  | eof =>
    simp only [tcpStep, tcpEofReceived]
    rw [if_neg] <;> simp [h]
  | connectionLost exc =>
    simp only [tcpStep, tcpConnectionLost]
    by_cases hexc : exc <;> simp [hexc, h]

/-- Folding TCP protocol events never changes an already-completed future. -/
theorem tcpFold_done_stable (events : List TcpEv) (s : TcpSendState)
    (v : Except XErr (Option Packet)) (h : s.done = some v) :
    (events.foldl tcpStep s).done = some v := by
  induction events generalizing s with
  | nil => exact h
  | cons e rest ih => exact ih _ (tcpStep_done_stable s e v h)

/-- TCP protocol events never change the count of written requests. -/
theorem tcpStep_written (s : TcpSendState) (e : TcpEv) :
    (tcpStep s e).written = s.written := by
  cases e with
  | data c =>
    simp only [tcpStep, tcpDataReceived]
    split <;> rfl
  | eof =>
    simp only [tcpStep, tcpEofReceived]
    split <;> rfl
  | connectionLost exc =>
    simp only [tcpStep, tcpConnectionLost]
    split <;> (split <;> rfl)

/-- Folding TCP protocol events never changes the count of written requests. -/
theorem tcpFold_written (events : List TcpEv) (s : TcpSendState) :
    (events.foldl tcpStep s).written = s.written := by
  induction events generalizing s with
  | nil => rfl
  | cons e rest ih => rw [List.foldl_cons, ih, tcpStep_written]

/-- Every completion site of the cooperative TCP protocol is guarded by a
done-check, so no event ever attempts to complete an already-completed future. -/
theorem tcpStep_guarded (s : TcpSendState) (e : TcpEv) :
    (tcpStep s e).unguardedAttempts = s.unguardedAttempts := by
  cases e with
  | data c =>
    simp only [tcpStep, tcpDataReceived]
    split <;> rfl
  | eof =>
    simp only [tcpStep, tcpEofReceived]
    split <;> rfl
  | connectionLost exc =>
    simp only [tcpStep, tcpConnectionLost]
    split <;> (split <;> rfl)

/-- Folding the broadcast datagram callback appends exactly the 64-byte packets,
in arrival order, and touches nothing else in the state. -/
theorem broadcastFold_eq (arrivals : List Packet) (s : BroadcastState) :
    arrivals.foldl broadcastDatagramReceived s =
      { s with replies := s.replies ++ arrivals.filter (fun p => p.length == 64) } := by
  induction arrivals generalizing s with
  | nil => simp
  | cons p rest ih =>
    rw [List.foldl_cons, ih]
    by_cases hp : p.length = 64
    · simp [broadcastDatagramReceived, hp, List.filter_cons]
    · simp [broadcastDatagramReceived, hp, List.filter_cons]

/-- The future of a UDP send over datagram arrivals only: it holds the first
64-byte arrival, and stays pending when there is none. -/
theorem udpFold_datagrams (arrivals : List Packet) (s : SendState) (h : s.done = none) :
    ((arrivals.map UdpEv.datagram).foldl udpSendStep s).done =
      (arrivals.find? (fun p => p.length == 64)).map (fun p => Except.ok (some p)) := by
  induction arrivals generalizing s with
  | nil => simp [h]
  | cons p rest ih =>
    rw [List.map_cons, List.foldl_cons]
    by_cases hp : p.length = 64
    · have hstep : (udpSendStep s (UdpEv.datagram p)).done = some (Except.ok (some p)) := by
        simp [udpSendStep, sendDatagramReceived, hp, h]
      rw [udpSendFold_done_stable _ _ _ hstep]
      simp [List.find?, hp]
    · have hstep : udpSendStep s (UdpEv.datagram p) = s := by
        simp [udpSendStep, sendDatagramReceived, hp]
      have hf : (List.length p == 64) = false := by simp [hp]
      rw [hstep, ih s h]
      simp [List.find?, hf]

/-- Accumulation across TCP data chunks: starting from a pending future and a
buffer shorter than a frame, once the buffer plus all incoming chunks reach 64
bytes the future is completed with the first 64 bytes of the accumulated stream. -/
theorem tcpFold_data (chunks : List Packet) (s : TcpSendState) (hdone : s.done = none)
    (hlt : s.buffer.length < 64) (hlen : 64 ≤ (s.buffer ++ chunks.flatten).length) :
    ((chunks.map TcpEv.data).foldl tcpStep s).done =
      some (Except.ok (some ((s.buffer ++ chunks.flatten).take 64))) := by
  induction chunks generalizing s with
  | nil =>
    exfalso
    simp at hlen
    omega
  | cons c rest ih =>
    rw [List.map_cons, List.foldl_cons]
    by_cases hb : 64 ≤ (s.buffer ++ c).length
    · have hb' : 64 ≤ s.buffer.length + c.length := by simpa using hb
      have hstep : (tcpStep s (TcpEv.data c)).done =
          some (Except.ok (some ((s.buffer ++ c).take 64))) := by
        simp [tcpStep, tcpDataReceived, hb', hdone]
      rw [tcpFold_done_stable _ _ _ hstep]
      have htake : ((s.buffer ++ c) ++ rest.flatten).take 64 = (s.buffer ++ c).take 64 :=
        List.take_append_of_le_length hb
      rw [List.flatten_cons, ← List.append_assoc, htake]
    · have hb' : ¬ 64 ≤ s.buffer.length + c.length := by simpa using hb
      have hstep : tcpStep s (TcpEv.data c) = { s with buffer := s.buffer ++ c } := by
        simp [tcpStep, tcpDataReceived, hb']
      have hblt : (s.buffer ++ c).length < 64 := by
        simp only [List.length_append]
        omega
      have hlen' : 64 ≤ ((s.buffer ++ c) ++ rest.flatten).length := by
        simpa [List.flatten_cons, List.append_assoc] using hlen
      rw [hstep]
      have hres := ih { s with buffer := s.buffer ++ c } hdone hblt hlen'
      simpa [List.flatten_cons, List.append_assoc] using hres

/-- The blocking `tcp._read` loop returns exactly the first `recv` result that is
a full 64-byte frame, and no frame otherwise: partial reads are never combined. -/
theorem syncRead_eq_find (recvs : List Packet) :
    syncRead recvs = recvs.find? (fun r => r.length == 64) := by
  induction recvs with
  | nil => rfl
  | cons r rest ih =>
    by_cases hr : r.length = 64
    · simp [syncRead, List.find?, hr]
    · have hf : (List.length r == 64) = false := by simp [hr]
      simp [syncRead, List.find?, hr, hf, ih]

/-- One listener step never touches the (non-existent) error callback channel. -/
theorem eventStep_callback (out : ListenOut) (d : Packet) :
    (eventDatagramReceived out d).callbackErrors = out.callbackErrors := by
  by_cases h64 : d.length = 64
  · cases hdec : decode_event d with
    | ok ev => simp [eventDatagramReceived, listenHandle, h64, hdec]
    | error msg => simp [eventDatagramReceived, listenHandle, h64, hdec]
  · simp [eventDatagramReceived, h64]

/-- One listener step never terminates the listener. -/
theorem eventStep_terminated (out : ListenOut) (d : Packet) :
    (eventDatagramReceived out d).terminated = out.terminated := by
  by_cases h64 : d.length = 64
  · cases hdec : decode_event d with
    | ok ev => simp [eventDatagramReceived, listenHandle, h64, hdec]
    | error msg => simp [eventDatagramReceived, listenHandle, h64, hdec]
  · simp [eventDatagramReceived, h64]

/-- One listener step appends to `delivered` exactly what processing the single
datagram from an empty output would deliver. -/
theorem eventStep_delivered (out : ListenOut) (d : Packet) :
    (eventDatagramReceived out d).delivered = out.delivered ++ (listenProcess [d]).delivered := by
  by_cases h64 : d.length = 64
  · cases hdec : decode_event d with
    | ok ev => simp [eventDatagramReceived, listenHandle, listenProcess, h64, hdec]
    | error msg => simp [eventDatagramReceived, listenHandle, listenProcess, h64, hdec]
  · simp [eventDatagramReceived, listenProcess, h64]

/-- One listener step appends to `consoleErrors` exactly what processing the
single datagram from an empty output would print. -/
theorem eventStep_console (out : ListenOut) (d : Packet) :
    (eventDatagramReceived out d).consoleErrors =
      out.consoleErrors ++ (listenProcess [d]).consoleErrors := by
  by_cases h64 : d.length = 64
  · cases hdec : decode_event d with
    | ok ev => simp [eventDatagramReceived, listenHandle, listenProcess, h64, hdec]
    | error msg => simp [eventDatagramReceived, listenHandle, listenProcess, h64, hdec]
  · simp [eventDatagramReceived, listenProcess, h64]

/-- Folding the listener over datagrams never writes to the error callback channel. -/
theorem listenFold_callback (xs : List Packet) (out : ListenOut) :
    (xs.foldl eventDatagramReceived out).callbackErrors = out.callbackErrors := by
  induction xs generalizing out with
  | nil => rfl
  | cons d xs ih => rw [List.foldl_cons, ih, eventStep_callback]

/-- Folding the listener over datagrams never terminates it. -/
theorem listenFold_terminated (xs : List Packet) (out : ListenOut) :
    (xs.foldl eventDatagramReceived out).terminated = out.terminated := by
  induction xs generalizing out with
  | nil => rfl
  | cons d xs ih => rw [List.foldl_cons, ih, eventStep_terminated]

/-- Deliveries compose: folding from any starting output appends exactly the
deliveries of processing the datagrams from an empty output. -/
theorem listenFold_delivered (xs : List Packet) (out : ListenOut) :
    (xs.foldl eventDatagramReceived out).delivered =
      out.delivered ++ (listenProcess xs).delivered := by
  induction xs generalizing out with
  | nil => simp [listenProcess]
  | cons d xs ih =>
    rw [List.foldl_cons, ih]
    have hrhs : (listenProcess (d :: xs)).delivered =
        (listenProcess [d]).delivered ++ (listenProcess xs).delivered := by
      show (xs.foldl eventDatagramReceived (eventDatagramReceived _ d)).delivered = _
      rw [ih, eventStep_delivered]
      simp [listenProcess]
    rw [hrhs, eventStep_delivered, List.append_assoc]

/-- Console error lines compose the same way deliveries do. -/
theorem listenFold_console (xs : List Packet) (out : ListenOut) :
    (xs.foldl eventDatagramReceived out).consoleErrors =
      out.consoleErrors ++ (listenProcess xs).consoleErrors := by
  induction xs generalizing out with
  | nil => simp [listenProcess]
  | cons d xs ih =>
    rw [List.foldl_cons, ih]
    have hrhs : (listenProcess (d :: xs)).consoleErrors =
        (listenProcess [d]).consoleErrors ++ (listenProcess xs).consoleErrors := by
      show (xs.foldl eventDatagramReceived (eventDatagramReceived _ d)).consoleErrors = _
      rw [ih, eventStep_console]
      simp [listenProcess]
    rw [hrhs, eventStep_console, List.append_assoc]

/-- The cooperative UDP wait never spends more than the deadline waiting. -/
theorem udpArrivalsWait_le (t : Nat) (arrivals : List (Nat × Packet)) :
    (udpArrivalsWait t arrivals).2 ≤ t := by
  induction arrivals with
  | nil => simp [udpArrivalsWait]
  | cons a rest ih =>
    obtain ⟨u, p⟩ := a
    simp only [udpArrivalsWait]
    by_cases h : u ≤ t ∧ p.length = 64
    · rw [if_pos h]
      exact h.1
    · rw [if_neg h]
      exact ih

/-- The cooperative TCP wait never spends more than the deadline waiting. -/
theorem tcpChunksWait_le (t : Nat) (chunks : List (Nat × Packet)) :
    ∀ buffer, (tcpChunksWait t buffer chunks).2 ≤ t := by
  induction chunks with
  | nil =>
    intro buffer
    simp [tcpChunksWait]
  | cons a rest ih =>
    intro buffer
    obtain ⟨u, c⟩ := a
    simp only [tcpChunksWait]
    by_cases hu : u ≤ t
    · rw [if_pos hu]
      by_cases hb : 64 ≤ (buffer ++ c).length
      · rw [if_pos hb]
        exact hu
      · rw [if_neg hb]
        exact ih _
    · rw [if_neg hu]
      exact ih _

/-- The set-ip request frame carries function byte `0x96` at offset 1. -/
theorem set_ip_request_fn (controller : Nat) (a n g : List Nat) :
    (set_ip_request controller a n g).get? 1 = some 0x96 := rfl

/-- A set-ip request over the cooperative UDP transport completes with no reply,
independent of whatever arrives afterwards, and sends exactly one datagram. -/
theorem udpSend_setip (request : Packet) (h : request.get? 1 = some 0x96)
    (events : List UdpEv) :
    udpSendRun request events = Except.ok none ∧
      (udpSendFinal request events).sentCount = 1 := by
  have h' : request[1]? = some 0x96 := by simpa using h
  have hmade : (sendConnectionMade request).done = some (Except.ok none) := by
    simp [sendConnectionMade, h']
  have hdone := udpSendFold_done_stable events _ _ hmade
  constructor
  · simp only [udpSendRun, udpSendFinal]
    rw [hdone]
  · simp only [udpSendFinal]
    rw [udpSendFold_sent]
    simp [sendConnectionMade, h']

/-- A set-ip request over the cooperative TCP transport completes with no reply,
independent of whatever arrives afterwards, and writes exactly one request. -/
theorem tcpSend_setip (request : Packet) (h : request.get? 1 = some 0x96)
    (events : List TcpEv) :
    tcpSendRun request events = Except.ok none ∧
      (tcpSendFinal request events).written = 1 := by
  have h' : request[1]? = some 0x96 := by simpa using h
  have hmade : (tcpConnectionMade request).done = some (Except.ok none) := by
    simp [tcpConnectionMade, h']
  have hdone := tcpFold_done_stable events _ _ hmade
  constructor
  · simp only [tcpSendRun, tcpSendFinal]
    rw [hdone]
  · simp only [tcpSendFinal]
    rw [tcpFold_written]
    simp [tcpConnectionMade, h']

/-- Every transport path of the dispatcher completes a set-ip request with no
reply, for every protocol/address combination and every later event. -/
theorem dispatchSend_setip (protocol : String) (destAddr : Option String)
    (request : Packet) (h : request.get? 1 = some 0x96)
    (udpEvents : List UdpEv) (tcpEvents : List TcpEv) :
    dispatchSend protocol destAddr request udpEvents tcpEvents = Except.ok none := by
  have hu := (udpSend_setip request h udpEvents).1
  have ht := (tcpSend_setip request h tcpEvents).1
  simp only [dispatchSend, selectTransport]
  by_cases h1 : protocol = "tcp" ∧ destAddr ≠ none
  · rw [if_pos h1]
    exact ht
  · rw [if_neg h1]
    by_cases h2 : destAddr = none
    · rw [if_pos h2]
      exact hu
    · rw [if_neg h2]
      exact hu

/-! ### Claim theorems -/

/-- C1 (amended): the cooperative TCP transport accumulates received bytes until a
64-byte frame has been assembled and returns the first 64 bytes of the accumulated
stream, even when the reply arrives in several partial reads; the blocking TCP
transport does NOT accumulate: it returns exactly the first `recv` result that is a
full 64-byte frame in a single read, so partial reads never yield the frame. -/
theorem tcp_reply_accumulation (request : Packet) (chunks : List Packet) (recvs : List Packet)
    (hreq : request.get? 1 ≠ some 0x96) (hlen : 64 ≤ chunks.flatten.length) :
    tcpSendRun request (chunks.map TcpEv.data) = Except.ok (some (chunks.flatten.take 64)) ∧
    tcpSyncSend request recvs = recvs.find? (fun r => r.length == 64) := by
  constructor
  · have hmade : tcpConnectionMade request =
        { buffer := [], done := none, written := 1, unguardedAttempts := 0 } := by
      simp only [tcpConnectionMade]
      rw [if_neg hreq]
    have hdone := tcpFold_data chunks
      { buffer := [], done := none, written := 1, unguardedAttempts := 0 }
      rfl (by simp) (by simpa using hlen)
    simp only [tcpSendRun, tcpSendFinal]
    rw [hmade, hdone]
    simp
  · simp only [tcpSyncSend]
    rw [if_neg hreq]
    exact syncRead_eq_find recvs

/-- C1 witness: a request frame answered in two 32-byte partial reads. -/
theorem tcp_reply_accumulation_witness :
    tcpSendRun (0x17 :: 0x94 :: List.replicate 62 0)
        (([List.replicate 32 1, List.replicate 32 2]).map TcpEv.data) =
      Except.ok (some (([List.replicate 32 1, List.replicate 32 2] : List Packet).flatten.take 64)) ∧
    tcpSyncSend (0x17 :: 0x94 :: List.replicate 62 0) [List.replicate 32 1, List.replicate 32 2] =
      ([List.replicate 32 1, List.replicate 32 2] : List Packet).find? (fun r => r.length == 64) :=
  tcp_reply_accumulation (0x17 :: 0x94 :: List.replicate 62 0)
    [List.replicate 32 1, List.replicate 32 2] [List.replicate 32 1, List.replicate 32 2]
    (by decide) (by decide)

/-- C1 counterexample: a reply delivered as two 32-byte partial reads is a full
64-byte frame, the cooperative transport returns it, but the blocking transport
returns no frame — refuting the claim that accumulation holds for both. -/
theorem tcp_blocking_partial_reads_lose_frame :
    tcpSyncSend (0x17 :: 0x94 :: List.replicate 62 0)
        [List.replicate 32 1, List.replicate 32 2] = none ∧
    (List.replicate 32 1 ++ List.replicate 32 2 : Packet).length = 64 ∧
    tcpSendRun (0x17 :: 0x94 :: List.replicate 62 0)
        [TcpEv.data (List.replicate 32 1), TcpEv.data (List.replicate 32 2)] =
      Except.ok (some (List.replicate 32 1 ++ List.replicate 32 2)) :=
  ⟨by decide, by decide, by decide⟩

/-- C2: when the bound source port equals the broadcast destination port the
broadcast operation fails immediately with the configuration error and no request
datagram is sent (and hence no replies are returned); the request is sent exactly
when the ports differ. -/
theorem broadcast_self_port_guard (srcPort destPort : Nat) (arrivals : List Packet) :
    (srcPort = destPort →
        broadcastRun srcPort destPort arrivals =
          Except.error (XErr.runtimeError
            ("invalid UDP bind address (port " ++ toString srcPort ++ " reserved for broadcast)")) ∧
        (broadcastFinal srcPort destPort arrivals).sentCount = 0) ∧
    (srcPort ≠ destPort → (broadcastFinal srcPort destPort arrivals).sentCount = 1) := by
  constructor
  · intro h
    subst h
    constructor
    · simp [broadcastRun, broadcastFinal, broadcastConnectionMade]
    · simp [broadcastFinal, broadcastConnectionMade]
  · intro h
    simp [broadcastFinal, broadcastConnectionMade, h, broadcastFold_eq]

/-- C2 witness: the guard fires on port 60000 bound against broadcast port 60000,
and the request is sent when bound to 59999. -/
theorem broadcast_self_port_guard_witness :
    broadcastRun 60000 60000 [] =
      Except.error (XErr.runtimeError
        ("invalid UDP bind address (port " ++ toString 60000 ++ " reserved for broadcast)")) ∧
    (broadcastFinal 60000 59999 []).sentCount = 1 :=
  ⟨((broadcast_self_port_guard 60000 60000 []).1 rfl).1,
   (broadcast_self_port_guard 60000 59999 []).2 (by decide)⟩

/-- C3: for every controller reference and every transport path, the set-ip
operation sends exactly one request (whose function byte is `0x96`), its reply
future is completed before any reply could be read — so the result is independent
of everything that arrives afterwards — and the dispatcher returns `True`
unconditionally. -/
theorem set_ip_fire_and_forget (protocol : String) (destAddr : Option String)
    (controller : Nat) (address netmask gateway : List Nat)
    (udpEvents : List UdpEv) (tcpEvents : List TcpEv) (recvs : List Packet) :
    (set_ip_request controller address netmask gateway).get? 1 = some 0x96 ∧
    set_ip protocol destAddr controller address netmask gateway udpEvents tcpEvents =
      Except.ok true ∧
    udpSendRun (set_ip_request controller address netmask gateway) udpEvents = Except.ok none ∧
    (udpSendFinal (set_ip_request controller address netmask gateway) udpEvents).sentCount = 1 ∧
    tcpSendRun (set_ip_request controller address netmask gateway) tcpEvents = Except.ok none ∧
    (tcpSendFinal (set_ip_request controller address netmask gateway) tcpEvents).written = 1 ∧
    tcpSyncSend (set_ip_request controller address netmask gateway) recvs = none := by
  have hfn := set_ip_request_fn controller address netmask gateway
  refine ⟨hfn, ?_, (udpSend_setip _ hfn udpEvents).1, (udpSend_setip _ hfn udpEvents).2,
    (tcpSend_setip _ hfn tcpEvents).1, (tcpSend_setip _ hfn tcpEvents).2, ?_⟩
  · simp only [set_ip]
    rw [dispatchSend_setip protocol destAddr _ hfn udpEvents tcpEvents]
  · simp only [tcpSyncSend]
    rw [if_pos hfn]

/-- C4 (amended): the transport is TCP exactly when the protocol is `"tcp"` and a
destination address is present, UDP broadcast-send exactly when the destination
address is null, and addressed UDP otherwise; a call with protocol `"tcp"` and a
null destination address is NOT rejected as a configuration error — it falls back
to UDP broadcast-send, and no selection ever raises. -/
theorem select_transport_rules (protocol : String) (destAddr : Option String) :
    (selectTransport protocol destAddr = Except.ok Transport.tcp ↔
      protocol = "tcp" ∧ destAddr ≠ none) ∧
    (selectTransport protocol destAddr = Except.ok Transport.udpBroadcastSend ↔
      destAddr = none) ∧
    (selectTransport protocol destAddr = Except.ok Transport.udpAddressed ↔
      (protocol ≠ "tcp" ∧ destAddr ≠ none)) ∧
    (∀ e, selectTransport protocol destAddr ≠ Except.error e) := by
  by_cases h1 : protocol = "tcp" <;> by_cases h2 : destAddr = none <;>
    simp [selectTransport, h1, h2]

/-- C4 witness: the three transport selections at concrete arguments. -/
theorem select_transport_rules_witness :
    selectTransport "tcp" (some "10.0.0.1:60000") = Except.ok Transport.tcp ∧
    selectTransport "udp" (some "10.0.0.1:60000") = Except.ok Transport.udpAddressed ∧
    selectTransport "udp" none = Except.ok Transport.udpBroadcastSend :=
  ⟨((select_transport_rules "tcp" (some "10.0.0.1:60000")).1).mpr (by decide),
   ((select_transport_rules "udp" (some "10.0.0.1:60000")).2.2.1).mpr (by decide),
   ((select_transport_rules "udp" none).2.1).mpr rfl⟩

/-- C4 counterexample: protocol `"tcp"` with a null destination address is not a
configuration error — the dispatcher selects UDP broadcast-send. -/
theorem tcp_without_addr_not_rejected :
    selectTransport "tcp" none = Except.ok Transport.udpBroadcastSend := by decide

/-- C5: a datagram whose length differs from 64 bytes leaves every receiving
protocol state unchanged — no reply is recorded, no error is raised, and the
event handler is not invoked. -/
theorem non64_datagrams_discarded (p : Packet) (h : p.length ≠ 64) :
    (∀ s : BroadcastState, broadcastDatagramReceived s p = s) ∧
    (∀ s : SendState, sendDatagramReceived s p = s) ∧
    (∀ out : ListenOut, eventDatagramReceived out p = out) := by
  refine ⟨fun s => ?_, fun s => ?_, fun out => ?_⟩
  · simp [broadcastDatagramReceived, h]
  · simp [sendDatagramReceived, h]
  · simp [eventDatagramReceived, h]

/-- C5 witness: a 63-byte datagram is discarded by all three receivers. -/
theorem non64_datagrams_discarded_witness :
    broadcastDatagramReceived { replies := [], done := none, sentCount := 1 }
        (List.replicate 63 0) = { replies := [], done := none, sentCount := 1 } ∧
    sendDatagramReceived { done := none, sentCount := 1, unguardedAttempts := 0 }
        (List.replicate 63 0) = { done := none, sentCount := 1, unguardedAttempts := 0 } ∧
    eventDatagramReceived
        { delivered := [], consoleErrors := [], callbackErrors := [], terminated := false }
        (List.replicate 63 0) =
      { delivered := [], consoleErrors := [], callbackErrors := [], terminated := false } :=
  ⟨(non64_datagrams_discarded _ (by decide)).1 _,
   (non64_datagrams_discarded _ (by decide)).2.1 _,
   (non64_datagrams_discarded _ (by decide)).2.2 _⟩

/-- C6: with the self-broadcast guard passed, a broadcast operation over any
sequence of 64-byte datagrams returns exactly those datagrams in first-received
order (each received datagram exactly once), and its future is still pending at
the deadline — the operation returns only after waiting out the full timeout. -/
theorem broadcast_collects_replies_in_order (srcPort destPort : Nat) (arrivals : List Packet)
    (hp : srcPort ≠ destPort) (h64 : ∀ p ∈ arrivals, p.length = 64) :
    broadcastRun srcPort destPort arrivals = Except.ok arrivals ∧
    (broadcastFinal srcPort destPort arrivals).done = none := by
  have hfilter : arrivals.filter (fun p => p.length == 64) = arrivals :=
    List.filter_eq_self.mpr (fun a ha => by simp [h64 a ha])
  have hfinal : broadcastFinal srcPort destPort arrivals =
      { replies := arrivals, done := none, sentCount := 1 } := by
    simp [broadcastFinal, broadcastConnectionMade, hp, broadcastFold_eq, hfilter]
  constructor
  · simp [broadcastRun, hfinal]
  · simp [hfinal]

/-- C6 witness: three 64-byte replies (one repeated) collected in arrival order. -/
theorem broadcast_collects_replies_in_order_witness :
    broadcastRun 0 60000 [List.replicate 64 1, List.replicate 64 2, List.replicate 64 1] =
      Except.ok [List.replicate 64 1, List.replicate 64 2, List.replicate 64 1] ∧
    (broadcastFinal 0 60000
        [List.replicate 64 1, List.replicate 64 2, List.replicate 64 1]).done = none :=
  broadcast_collects_replies_in_order 0 60000
    [List.replicate 64 1, List.replicate 64 2, List.replicate 64 1] (by decide) (by decide)

/-- C7: an addressed UDP send of a non-set-ip request returns exactly the first
64-byte datagram that arrives (all later ones are ignored by the done-check), and
raises the timeout error when no 64-byte datagram arrives before the deadline. -/
theorem udp_addressed_first_reply (request : Packet) (arrivals : List Packet)
    (hreq : request.get? 1 ≠ some 0x96) :
    udpSendRun request (arrivals.map UdpEv.datagram) =
      match arrivals.find? (fun p => p.length == 64) with
      | some p => Except.ok (some p)
      | none => Except.error (XErr.timeoutError "UDP request timeout") := by
  have hmade : sendConnectionMade request =
      { done := none, sentCount := 1, unguardedAttempts := 0 } := by
    simp only [sendConnectionMade]
    rw [if_neg hreq]
  have hfold := udpFold_datagrams arrivals
    { done := none, sentCount := 1, unguardedAttempts := 0 } rfl
  simp only [udpSendRun, udpSendFinal]
  rw [hmade, hfold]
  rcases hfind : arrivals.find? (fun p => p.length == 64) with _ | p <;> simp [hfind]

/-- C7 witness: a 63-byte datagram is skipped, the first 64-byte datagram is the
reply and the second one is ignored. -/
theorem udp_addressed_first_reply_witness :
    udpSendRun (0x17 :: 0x94 :: List.replicate 62 0)
        (([List.replicate 63 1, List.replicate 64 2, List.replicate 64 3]).map UdpEv.datagram) =
      match ([List.replicate 63 1, List.replicate 64 2, List.replicate 64 3] : List Packet).find?
          (fun p => p.length == 64) with
      | some p => Except.ok (some p)
      | none => Except.error (XErr.timeoutError "UDP request timeout") :=
  udp_addressed_first_reply (0x17 :: 0x94 :: List.replicate 62 0)
    [List.replicate 63 1, List.replicate 64 2, List.replicate 64 3] (by decide)

/-- C8 (amended): the cooperative transports wait on a single future under
`asyncio.wait_for`, so the total time spent waiting for reads is bounded by the
per-call timeout for every input; the blocking TCP read applies the timeout to
each `recv` call separately, so its total wait is not bounded by the timeout. -/
theorem coop_timeout_bounds_total_wait (t : Nat) (request : Packet)
    (arrivals chunks : List (Nat × Packet)) :
    (udpSendElapsed t request arrivals).2 ≤ t ∧ (tcpSendElapsed t request chunks).2 ≤ t := by
  constructor
  · simp only [udpSendElapsed]
    split
    · simp
    · exact udpArrivalsWait_le t arrivals
  · simp only [tcpSendElapsed]
    split
    · simp
    · exact tcpChunksWait_le t chunks []

/-- C8 counterexample: with a 2-second timeout, three receptions arriving after 1
second each (two junk, then the frame) keep the blocking read waiting 3 seconds in
total — more than the per-call timeout — refuting the claim for the blocking TCP
read. -/
theorem blocking_read_waits_beyond_timeout :
    (tcpReadElapsed 2
        [(1, List.replicate 32 0), (1, List.replicate 32 0), (1, List.replicate 64 3)]).1 =
      some (List.replicate 64 3) ∧
    (tcpReadElapsed 2
        [(1, List.replicate 32 0), (1, List.replicate 32 0), (1, List.replicate 64 3)]).2 = 3 ∧
    2 < 3 :=
  ⟨by decide, by decide, by decide⟩

/-- C9 (amended): a 64-byte datagram whose function byte is not the event function
code makes the listener surface the error string
`"invalid reply function code (xx)"` on the console (the handler prints
`"   *** ERROR ..."`); the async listener exposes no error callback, so nothing is
surfaced through one; the listener does not terminate and still delivers every
subsequently received valid event. -/
theorem listener_decode_error_on_console (pre : List Packet) (bad : Packet)
    (post : List Packet) (hlen : bad.length = 64) (hfn : bad.getD 1 0 ≠ 0x20) :
    (listenProcess (pre ++ bad :: post)).terminated = false ∧
    (listenProcess (pre ++ bad :: post)).callbackErrors = [] ∧
    ("   *** ERROR " ++ ("invalid reply function code (" ++ hex2 (bad.getD 1 0) ++ ")"))
      ∈ (listenProcess (pre ++ bad :: post)).consoleErrors ∧
    (listenProcess (pre ++ bad :: post)).delivered =
      (listenProcess pre).delivered ++ (listenProcess post).delivered := by
  have hfn' : ¬ bad[1]?.getD 0 = 0x20 := by simpa using hfn
  have hdec : decode_event bad =
      Except.error ("invalid reply function code (" ++ hex2 (bad.getD 1 0) ++ ")") := by
    simp [decode_event, hfn']
  have hexp : listenProcess (pre ++ bad :: post) =
      post.foldl eventDatagramReceived (eventDatagramReceived (listenProcess pre) bad) := by
    simp [listenProcess, List.foldl_append]
  have hbadstep : eventDatagramReceived (listenProcess pre) bad =
      { delivered := (listenProcess pre).delivered,
        consoleErrors := (listenProcess pre).consoleErrors ++
          ["   *** ERROR " ++ ("invalid reply function code (" ++ hex2 (bad.getD 1 0) ++ ")")],
        callbackErrors := (listenProcess pre).callbackErrors,
        terminated := (listenProcess pre).terminated } := by
    simp [eventDatagramReceived, hlen, listenHandle, hdec]
  refine ⟨?_, ?_, ?_, ?_⟩
  · rw [hexp, listenFold_terminated, hbadstep]
    exact listenFold_terminated pre _
  · rw [hexp, listenFold_callback, hbadstep]
    exact listenFold_callback pre _
  · rw [hexp, listenFold_console, hbadstep]
    simp
  · rw [hexp, listenFold_delivered, hbadstep]

/-- C9 witness: one valid event, then a frame with function byte `0xff`, then
another valid event. -/
theorem listener_decode_error_on_console_witness :
    (listenProcess ([0x17 :: 0x20 :: List.replicate 62 0] ++
        (0x17 :: 0xFF :: List.replicate 62 0) :: [0x19 :: 0x20 :: List.replicate 62 0])).terminated =
      false ∧
    (listenProcess ([0x17 :: 0x20 :: List.replicate 62 0] ++
        (0x17 :: 0xFF :: List.replicate 62 0) :: [0x19 :: 0x20 :: List.replicate 62 0])).callbackErrors =
      [] ∧
    ("   *** ERROR " ++ ("invalid reply function code (" ++
        hex2 ((0x17 :: 0xFF :: List.replicate 62 0 : Packet).getD 1 0) ++ ")"))
      ∈ (listenProcess ([0x17 :: 0x20 :: List.replicate 62 0] ++
          (0x17 :: 0xFF :: List.replicate 62 0) :: [0x19 :: 0x20 :: List.replicate 62 0])).consoleErrors ∧
    (listenProcess ([0x17 :: 0x20 :: List.replicate 62 0] ++
        (0x17 :: 0xFF :: List.replicate 62 0) :: [0x19 :: 0x20 :: List.replicate 62 0])).delivered =
      (listenProcess [0x17 :: 0x20 :: List.replicate 62 0]).delivered ++
        (listenProcess [0x19 :: 0x20 :: List.replicate 62 0]).delivered :=
  listener_decode_error_on_console [0x17 :: 0x20 :: List.replicate 62 0]
    (0x17 :: 0xFF :: List.replicate 62 0) [0x19 :: 0x20 :: List.replicate 62 0]
    (by decide) (by decide)

/-- C9 counterexample: on a bad frame followed by a valid event, the error string
appears only as a console print; the error callback channel stays empty (the async
listener API has no error callback) — refuting the claim that the error is
surfaced through the error callback. -/
theorem listener_error_not_via_callback :
    listenProcess [0x17 :: 0xFF :: List.replicate 62 0, 0x17 :: 0x20 :: List.replicate 62 0] =
      { delivered := [0x17 :: 0x20 :: List.replicate 62 0],
        consoleErrors := ["   *** ERROR invalid reply function code (ff)"],
        callbackErrors := [], terminated := false } := by decide

/-- C10 (amended): once a cooperative send's completion future is completed, no
later event changes its value — every handler of the TCP protocol and the datagram
handler of the UDP protocol are guarded by done-checks, and the TCP protocol never
attempts to complete an already-completed future; the UDP connection-lost handler,
however, is not guarded (see the counterexample), although even its unguarded
attempt leaves the completed value unchanged. -/
theorem completed_future_outcome_stable (v : Except XErr (Option Packet)) :
    (∀ (s : SendState) (e : UdpEv), s.done = some v → (udpSendStep s e).done = some v) ∧
    (∀ (s : TcpSendState) (e : TcpEv), s.done = some v → (tcpStep s e).done = some v) ∧
    (∀ (s : TcpSendState) (e : TcpEv), (tcpStep s e).unguardedAttempts = s.unguardedAttempts) :=
  ⟨fun s e h => udpSendStep_done_stable s e v h,
   fun s e h => tcpStep_done_stable s e v h,
   fun s e => tcpStep_guarded s e⟩

/-- C10 witness: a completed future survives a late datagram (UDP) and a late EOF
(TCP) unchanged, with no TCP completion attempt. -/
theorem completed_future_outcome_stable_witness :
    (udpSendStep { done := some (Except.ok none), sentCount := 1, unguardedAttempts := 0 }
        (UdpEv.datagram (List.replicate 64 9))).done = some (Except.ok none) ∧
    (tcpStep { buffer := [], done := some (Except.ok none), written := 1, unguardedAttempts := 0 }
        TcpEv.eof).done = some (Except.ok none) ∧
    (tcpStep { buffer := [], done := some (Except.ok none), written := 1, unguardedAttempts := 0 }
        TcpEv.eof).unguardedAttempts =
      ({ buffer := [], done := some (Except.ok none), written := 1,
         unguardedAttempts := 0 } : TcpSendState).unguardedAttempts :=
  ⟨(completed_future_outcome_stable (Except.ok none)).1 _ _ rfl,
   (completed_future_outcome_stable (Except.ok none)).2.1 _ _ rfl,
   (completed_future_outcome_stable (Except.ok none)).2.2 _ _⟩

/-- C10 counterexample: after the first 64-byte reply completes the future, a
connection loss reporting an error makes the UDP protocol attempt `set_exception`
on the already-completed future — the attempt is not guarded by a done-check,
refuting the claim that every subsequent completion attempt is guarded. -/
theorem udp_connection_lost_unguarded :
    (udpSendFinal (0x17 :: 0x94 :: List.replicate 62 0)
        [UdpEv.datagram (List.replicate 64 5)]).done =
      some (Except.ok (some (List.replicate 64 5))) ∧
    (udpSendFinal (0x17 :: 0x94 :: List.replicate 62 0)
        [UdpEv.datagram (List.replicate 64 5), UdpEv.connectionLost true]).unguardedAttempts =
      1 :=
  ⟨by decide, by decide⟩
